import Mathlib

/-!
Shallow embedding of the s7client write path and error taxonomy.

Source files embedded:
  * `src/errors.rs` — the error taxonomy (`Error`, `IsoError`,
    `S7ProtocolError`, `S7DataItemResponseError`).
  * `src/s7_protocol/write_area.rs` — `DataItem::build_write`,
    `ReadWriteParams::build_write` and the fragmentation loop `write_area`.

Machine integers are modelled as `Nat`; wherever Rust performs a lossy
cast (`as u16`, `as u32`) or wrapping arithmetic, an explicit `% 2^w`
appears.  The Rust `i32` division (truncation toward zero) is `Int.tdiv`.
The transport exchange is modelled as a pure oracle `Nat → List Nat`
giving the response bytes of the i-th exchange, and the `while` loop of
`write_area` is given explicit fuel so that non-termination is
observable as the `fuelOut` outcome.
-/

set_option maxRecDepth 8000

namespace S7Client

/-! ### `src/errors.rs` -/

/-- `IsoError`, from `src/errors.rs` (the discriminant values play no
behavioural role and are omitted). -/
inductive IsoError where
  | Connect
  | Disconnect
  | InvalidPDU
  | InvalidDataSize
  | ShortPacket
  | TooManyFragments
  | PduOverflow
  | SendPacket
  | RecvPacket
  | InvalidParams
  | Unknown
deriving DecidableEq

/-- `S7DataItemResponseError`, from `src/errors.rs`. -/
inductive S7DataItemResponseError where
  | Reserved
  | HardwareFault
  | AccessNotAllowed
  | AddressOutOfRange
  | DataTypeNotSupported
  | DataTypeInconsistent
  | ObjectDoesNotExist
  | Unknown
deriving DecidableEq

/-- `impl From<u8> for S7DataItemResponseError`, from `src/errors.rs`. -/
def S7DataItemResponseError.fromU8 (code : Nat) : S7DataItemResponseError :=
  match code with
  | 0x00 => .Reserved
  | 0x01 => .HardwareFault
  | 0x03 => .AccessNotAllowed
  | 0x05 => .AddressOutOfRange
  | 0x06 => .DataTypeNotSupported
  | 0x07 => .DataTypeInconsistent
  | 0x0a => .ObjectDoesNotExist
  | _ => .Unknown

/-- `struct S7ProtocolError`, from `src/errors.rs`.  The Rust field
`class` is a Lean keyword, so it is called `cls` here. -/
structure S7ProtocolError where
  cls : String
  error : Option Nat
deriving DecidableEq

/-- `S7ProtocolError::from_codes`, from `src/errors.rs`. -/
def S7ProtocolError.from_codes (cls code : Option Nat) : S7ProtocolError :=
  { cls :=
      match cls with
      | some class_code =>
        match class_code with
        | 0x00 => "No error"
        | 0x81 => "Application relationship error"
        | 0x82 => "Object definition error"
        | 0x83 => "No resources available error"
        | 0x84 => "Error on service processing"
        | 0x85 => "Error on supplies"
        | 0x87 => "Access error"
        | _ => "Unknown error class"
      | none => "No error class given"
    error := code }

/-- `Vec<String>::join`, the `error.join(" - ")` used by the `Display`
impl of `S7ProtocolError`. -/
def joinSep (sep : String) : List String → String
  | [] => ""
  | [x] => x
  | x :: xs => x ++ sep ++ joinSep sep xs

/-- `impl fmt::Display for S7ProtocolError`, from `src/errors.rs`. -/
def S7ProtocolError.display (e : S7ProtocolError) : String :=
  let error := ["S7 Protocol error: " ++ e.cls]
  let error :=
    match e.error with
    | some error_code => error ++ ["error code: " ++ toString error_code]
    | none => error
  joinSep " - " error

/-- `enum Error`, from `src/errors.rs`.  The payloads of `IO` and
`Pool` are external std/deadpool types; they are modelled as a bare
`Nat` kind and no payload respectively (no claim depends on them). -/
inductive Error where
  | Io (kind : Nat)
  | Pool
  | Connection (msg : String)
  | DataExchangeTimedOut
  | TryFrom (bytes : List Nat) (msg : String)
  | ISOResponse (e : IsoError)
  | ISORequest (e : IsoError)
  | RequestedBitOutOfRange
  | RequestNotAcknowledged
  | S7ProtocolError (e : S7Client.S7ProtocolError)
  | DataItemError (e : S7DataItemResponseError)
  | ResponseDoesNotBelongToCurrentPDU
deriving DecidableEq

/-! ### Types consumed by `write_area` whose defining files
(`s7_protocol/types.rs`, `s7_protocol/header.rs`, `connection/tcp.rs`)
are not under `src/`; they are modelled from the spec. -/

/-- Modelled from the spec: `DataItemTransportSize` (from the missing
`s7_protocol/types.rs`); its `len()` is "the byte width of one addressed
element (bit, byte, word, double-word)". -/
inductive DataItemTransportSize where
  | Bit
  | Byte
  | Word
  | DWord
deriving DecidableEq

/-- Modelled from the spec: per-element transport size in bytes. -/
def DataItemTransportSize.len : DataItemTransportSize → Nat
  | .Bit => 1
  | .Byte => 1
  | .Word => 2
  | .DWord => 4

/-- Modelled from the spec: the numeric transport-size code written into
the frame (`data_type as u8`); the spec fixes no concrete values, so
distinct codes are chosen. -/
def DataItemTransportSize.code : DataItemTransportSize → Nat
  | .Bit => 3
  | .Byte => 4
  | .Word => 5
  | .DWord => 6

/-- Modelled from the spec: `S7DataTypes` (from the missing
`s7_protocol/types.rs`); `get_size` is the "byte-size-per-element" that
"determines element size used for all offset math". -/
inductive S7DataTypes where
  | S7BIT
  | S7BYTE
  | S7WORD
  | S7DWORD
deriving DecidableEq

/-- Modelled from the spec: byte size of one element. -/
def S7DataTypes.get_size : S7DataTypes → Nat
  | .S7BIT => 1
  | .S7BYTE => 1
  | .S7WORD => 2
  | .S7DWORD => 4

/-- Modelled from the spec: the `impl From<S7DataTypes> for
DataItemTransportSize` used at `data_type.into()`. -/
def S7DataTypes.transport : S7DataTypes → DataItemTransportSize
  | .S7BIT => .Bit
  | .S7BYTE => .Byte
  | .S7WORD => .Word
  | .S7DWORD => .DWord

/-- Modelled from the spec: `Area`, "a PLC memory region being addressed
(inputs, outputs, flags, data block, etc.)"; opaque to the write loop. -/
inductive Area where
  | ProcessInput
  | ProcessOutput
  | Merker
  | DataBlock
deriving DecidableEq

/-- Modelled from the spec: the fixed per-fragment overhead.  The source
computes it from `mem::size_of` of `S7ProtocolHeader` and
`ReadWriteParams` (structs not under `src/`); the source comment next to
the computation states it "should be 35". -/
def header_size : Nat := 35

/-- Modelled from the spec: the PDU-type/acknowledgement discriminant of
an acknowledgement response; the spec fixes no concrete value, 3 is
used. -/
def ACK_PDU_TYPE : Nat := 3

/-- Modelled from the spec: the decoded fixed-size protocol header —
"protocol-id (1B), PDU-type/acknowledgement discriminant (1B), reserved
(2B), PDU reference (2B), parameter length (2B), data length (2B);
acknowledgement responses append error-class (1B) and error-code
(1B)". -/
structure S7ProtocolHeader where
  protocol_id : Nat
  pdu_type : Nat
  pdu_ref : Nat
  param_len : Nat
  data_len : Nat
  err_class : Option Nat
  err_code : Option Nat
deriving DecidableEq

/-- Modelled from the spec: `S7ProtocolHeader::try_from` (from the
missing `s7_protocol/header.rs`): "parse the fixed-size leading slice of
any response into a ProtocolHeader.  Fails with an ISO-response error if
the slice is shorter than the fixed header size (ShortPacket) or
structurally malformed (InvalidPDU)"; a wrong protocol id counts as
malformed.  Multi-byte fields are big-endian. -/
def S7ProtocolHeader.tryFrom (bytes : List Nat) : Except Error S7ProtocolHeader :=
  if bytes.length < 12 then .error (.ISOResponse .ShortPacket)
  else if bytes.getD 0 0 ≠ 0x32 then .error (.ISOResponse .InvalidPDU)
  else
    .ok
      { protocol_id := bytes.getD 0 0
        pdu_type := bytes.getD 1 0
        pdu_ref := bytes.getD 4 0 * 256 + bytes.getD 5 0
        param_len := bytes.getD 6 0 * 256 + bytes.getD 7 0
        data_len := bytes.getD 8 0 * 256 + bytes.getD 9 0
        err_class :=
          if bytes.getD 1 0 = ACK_PDU_TYPE then some (bytes.getD 10 0) else none
        err_code :=
          if bytes.getD 1 0 = ACK_PDU_TYPE then some (bytes.getD 11 0) else none }

/-- Modelled from the spec: `is_ack` — "the decoded acknowledgement flag
must indicate a positive acknowledgement; otherwise fail with
RequestNotAcknowledged"; returns the header unchanged on success. -/
def S7ProtocolHeader.is_ack (h : S7ProtocolHeader) : Except Error S7ProtocolHeader :=
  if h.pdu_type = ACK_PDU_TYPE then .ok h else .error .RequestNotAcknowledged

/-- Modelled from the spec: `is_current_pdu_response` — "the decoded
reference must equal the reference used for the outstanding request;
otherwise fail with ResponseDoesNotBelongToCurrentPDU". -/
def S7ProtocolHeader.is_current_pdu_response (h : S7ProtocolHeader) (pdu_number : Nat) :
    Except Error S7ProtocolHeader :=
  if h.pdu_ref = pdu_number then .ok h else .error .ResponseDoesNotBelongToCurrentPDU

/-- Modelled from the spec: `has_error` — the "header carries a non-zero
protocol error class/code". -/
def S7ProtocolHeader.has_error (h : S7ProtocolHeader) : Bool :=
  (h.err_class.getD 0 != 0) || (h.err_code.getD 0 != 0)

/-- Modelled from the spec: `get_errors` returns the optional error
class and code carried by the header. -/
def S7ProtocolHeader.get_errors (h : S7ProtocolHeader) : Option Nat × Option Nat :=
  (h.err_class, h.err_code)

/-! ### `src/s7_protocol/write_area.rs` -/

/-- `DataItem`, from `s7_protocol/types.rs` as used by
`DataItem::build_write` in `src/s7_protocol/write_area.rs`. -/
structure DataItem where
  error_code : Nat
  var_type : Nat
  count : Nat
  data : List Nat
deriving DecidableEq

/-- `DataItem::build_write`, from `src/s7_protocol/write_area.rs`.
`count` is `vec.len() as u16 * transport_size` computed in `u16`, hence
the explicit `% 2^16` for the cast and for the wrapping product. -/
def DataItem.build_write (data_type : DataItemTransportSize) (data : Option (List Nat)) :
    Except Error DataItem :=
  let transport_size := data_type.len
  match data with
  | some vec =>
      .ok
        { error_code := 0
          var_type := data_type.code
          count := vec.length % 2 ^ 16 * transport_size % 2 ^ 16
          data := vec }
  | none => .error (.ISORequest .InvalidDataSize)

/-- Rust `buffer.get(a..b)` on a byte slice: `Some` of the sub-slice iff
`a <= b && b <= buffer.len()`, `None` otherwise. -/
def list_get_range (l : List Nat) (a b : Nat) : Option (List Nat) :=
  if a ≤ b ∧ b ≤ l.length then some ((l.drop a).take (b - a)) else none

/-- The header-validation part of one response, lines 97–110 of
`src/s7_protocol/write_area.rs`: decode the leading 12-byte slice,
`is_ack`, `is_current_pdu_response`, then the protocol-error check
(`has_error`/`get_errors`/`from_codes`). -/
def check_header (pdu_number : Nat) (exchanged_data : List Nat) :
    Except Error S7ProtocolHeader :=
  match S7ProtocolHeader.tryFrom (exchanged_data.take 12) with
  | .error e => .error e
  | .ok r0 =>
    match r0.is_ack with
    | .error e => .error e
    | .ok r1 =>
      match r1.is_current_pdu_response pdu_number with
      | .error e => .error e
      | .ok response =>
        if response.has_error then
          .error (.S7ProtocolError
            (S7ProtocolError.from_codes response.get_errors.1 response.get_errors.2))
        else .ok response

/-- The per-item result check, lines 111–118 of
`src/s7_protocol/write_area.rs`: `exchanged_data.get(14)`; a present
byte other than 255 aborts with a decoded `DataItemError`. -/
def check_data_item (exchanged_data : List Nat) : Except Error Unit :=
  match exchanged_data.get? 14 with
  | some error_code =>
      if error_code != 255 then
        .error (.DataItemError (S7DataItemResponseError.fromU8 error_code))
      else .ok ()
  | none => .ok ()

/-- Full processing of one exchanged response (header validation
followed by the per-item check), as in the loop body of `write_area`. -/
def process_response (pdu_number : Nat) (exchanged_data : List Nat) : Except Error Unit :=
  match check_header pdu_number exchanged_data with
  | .error e => .error e
  | .ok _ => check_data_item exchanged_data

/-- What one transport exchange of the fragmentation loop sent: the
element offset at the start of the fragment, the `start + offset`
address put into the `RequestItem`, the `items_to_write as u16` count
put into the `RequestItem`, and the byte payload of the `DataItem`.
The byte-exact frame assembly (headers and lengths) is not modelled:
the response oracle ignores request bytes. -/
structure ExchangeRec where
  offset : Nat
  start_addr : Nat
  item_count : Nat
  data : List Nat
deriving DecidableEq

/-- Outcome of a `write_area` run: `Ok(())`, `Err(e)`, a Rust panic
(out-of-bounds slice index), or fuel exhaustion (the Rust loop would
still be running). -/
inductive WriteOutcome where
  | ok
  | err (e : Error)
  | panicked
  | fuelOut
deriving DecidableEq

/-- The `while offset == 0 || offset < buffer.len() as u32` loop of
`write_area` (`src/s7_protocol/write_area.rs` lines 62–120), fuelled.
`u32` subtraction and multiplication wrap (`% 2^32`), mirroring release
semantics; `responses idx` is the oracle reply to the `idx`-th
transport exchange.  Returns the outcome and the list of exchanges
performed, in order. -/
def write_area_loop (pdu_length pdu_number start : Nat) (data_type : S7DataTypes)
    (buffer : List Nat) (responses : Nat → List Nat) (offset idx fuel : Nat) :
    WriteOutcome × List ExchangeRec :=
  match fuel with
  | 0 => (.fuelOut, [])
  | fuel + 1 =>
    let blen := buffer.length % 2 ^ 32
    let requested_size := blen / data_type.get_size
    let max_elements := (pdu_length - header_size) % 2 ^ 32 / data_type.get_size
    if offset = 0 ∨ offset < blen then
      -- match buffer.len() as u32 - offset { x if x > max_elements => max_elements,
      --                                      _ => requested_size - offset }
      let items_to_write : Nat :=
        if blen - offset > max_elements then max_elements
        else (requested_size + 2 ^ 32 - offset) % 2 ^ 32
      -- buffer.get(offset as usize..(items_to_write * data_type.get_size()) as usize)
      let slice := list_get_range buffer offset (items_to_write * data_type.get_size % 2 ^ 32)
      match DataItem.build_write data_type.transport slice with
      | .error e => (.err e, [])
      | .ok item =>
        let record : ExchangeRec :=
          { offset := offset
            start_addr := (start + offset) % 2 ^ 32
            item_count := items_to_write % 2 ^ 16
            data := item.data }
        -- offset += requested_size;   (before the exchange)
        let offset1 := (offset + requested_size) % 2 ^ 32
        let exchanged_data := responses idx
        -- exchanged_data[0..12] panics when the response is shorter than 12 bytes
        if exchanged_data.length < 12 then (.panicked, [record])
        else
          match process_response pdu_number exchanged_data with
          | .error e => (.err e, [record])
          | .ok _ =>
            -- offset += requested_size;   (at the end of the loop body)
            let offset2 := (offset1 + requested_size) % 2 ^ 32
            let next :=
              write_area_loop pdu_length pdu_number start data_type buffer responses
                offset2 (idx + 1) fuel
            (next.1, record :: next.2)
    else (.ok, [])

/-- `write_area`, from `src/s7_protocol/write_area.rs`: the up-front
PDU-capacity check (`i32` arithmetic with truncating division, hence
`Int.tdiv`), then the fragmentation loop starting at offset 0. -/
def write_area (pdu_length pdu_number : Nat) (area : Area) (db_number start : Nat)
    (data_type : S7DataTypes) (buffer : List Nat) (responses : Nat → List Nat)
    (fuel : Nat) : WriteOutcome × List ExchangeRec :=
  let _ := area
  let _ := db_number
  if Int.tdiv ((pdu_length : Int) - (header_size : Int)) (data_type.get_size : Int) < 1 then
    (.err (.ISORequest .InvalidPDU), [])
  else
    write_area_loop pdu_length pdu_number start data_type buffer responses 0 0 fuel

/-! ### Response fixtures used by the concrete scenarios -/

/-- A well-formed acknowledgement response for PDU reference 0 with no
protocol error and per-item result byte 255 (success) at index 14. -/
def goodResponse : List Nat :=
  [0x32, 3, 0, 0, 0, 0, 0, 0, 0, 0, 0, 0, 0, 0, 255]

/-- A well-formed acknowledgement response for PDU reference 0 with no
protocol error whose per-item result byte (index 14) is `0x05`. -/
def badItemResponse : List Nat :=
  [0x32, 3, 0, 0, 0, 0, 0, 0, 0, 0, 0, 0, 0, 0, 5]

/-- A well-formed acknowledgement response of exactly 12 bytes: it
decodes and validates, and has no byte at index 14. -/
def headerOnlyResponse : List Nat :=
  [0x32, 3, 0, 0, 0, 0, 0, 0, 0, 0, 0, 0]

/-! ### Helper lemmas -/

/-- The Rust `i32` division truncates toward zero, so the capacity
pre-check `(pdu - header) / size < 1` holds exactly when the PDU cannot
fit one element. -/
theorem tdiv_lt_one_of_lt {p hs s : Nat} (hs1 : 1 ≤ s) (h : p < hs + s) :
    Int.tdiv ((p : Int) - (hs : Int)) (s : Int) < 1 := by
  rcases Nat.lt_or_ge p hs with hlt | hge
  · have hneg : (p : Int) - (hs : Int) = -((hs - p : Nat) : Int) := by
      push_cast [Nat.cast_sub (Nat.le_of_lt hlt)]
      ring
    rw [hneg, Int.neg_tdiv]
    have : (0 : Int) ≤ Int.tdiv ((hs - p : Nat) : Int) (s : Int) :=
      Int.tdiv_nonneg (by positivity) (by positivity)
    omega
  · have heq : (p : Int) - (hs : Int) = ((p - hs : Nat) : Int) := by
      push_cast [Nat.cast_sub hge]
      ring
    rw [heq, Int.tdiv_eq_zero_of_lt (by positivity) (by exact_mod_cast by omega)]
    omega

/-- One iteration of the fragmentation loop on the empty buffer makes no
progress: the guard `offset == 0` re-enters the loop, `requested_size`
is 0, the round trips the transport and recurses at offset 0. -/
theorem write_area_loop_empty_step (idx fuel : Nat) :
    (write_area_loop 235 0 0 S7DataTypes.S7BYTE [] (fun _ => goodResponse) 0 idx
        (fuel + 1)).1 =
      (write_area_loop 235 0 0 S7DataTypes.S7BYTE [] (fun _ => goodResponse) 0 (idx + 1)
        fuel).1 :=
  rfl

/-- C7: the per-item response byte decodes exactly per the fixed table,
with every unlisted byte value mapping to `Unknown`. -/
theorem C7_data_item_error_table :
    S7DataItemResponseError.fromU8 0x00 = .Reserved ∧
    S7DataItemResponseError.fromU8 0x01 = .HardwareFault ∧
    S7DataItemResponseError.fromU8 0x03 = .AccessNotAllowed ∧
    S7DataItemResponseError.fromU8 0x05 = .AddressOutOfRange ∧
    S7DataItemResponseError.fromU8 0x06 = .DataTypeNotSupported ∧
    S7DataItemResponseError.fromU8 0x07 = .DataTypeInconsistent ∧
    S7DataItemResponseError.fromU8 0x0a = .ObjectDoesNotExist ∧
    ∀ c, c < 256 → c ∉ ([0x00, 0x01, 0x03, 0x05, 0x06, 0x07, 0x0a] : List Nat) →
      S7DataItemResponseError.fromU8 c = .Unknown := by
  refine ⟨rfl, rfl, rfl, rfl, rfl, rfl, rfl, ?_⟩
  decide

/-- C7 witness: byte `0x02` is outside the table and decodes to
`Unknown`. -/
theorem C7_data_item_error_table_witness :
    S7DataItemResponseError.fromU8 0x02 = .Unknown :=
  C7_data_item_error_table.2.2.2.2.2.2.2 0x02 (by decide) (by decide)

/-- C9: `DataItem::build_write` fails exactly on a missing slice, with
`ISORequest(InvalidDataSize)`, and that is its only possible error. -/
theorem C9_build_write_error_behaviour (ts : DataItemTransportSize) :
    DataItem.build_write ts none = .error (.ISORequest .InvalidDataSize) ∧
    (∀ data, (DataItem.build_write ts (some data)).isOk = true) ∧
    (∀ o, (DataItem.build_write ts o).isOk = true ∨
      DataItem.build_write ts o = .error (.ISORequest .InvalidDataSize)) := by
  refine ⟨rfl, fun data => rfl, fun o => ?_⟩
  cases o with
  | none => exact Or.inr rfl
  | some data => exact Or.inl rfl
/-- C8: `from_codes` maps the error class per the fixed table (with the
given defaults for unknown and absent classes), the displayed message
appends the code byte when present, and class `0x84` with code `0x05`
displays a message containing both "Error on service processing" and
"5". -/
theorem C8_protocol_error_classes :
    (∀ code, (S7ProtocolError.from_codes (some 0x00) code).cls = "No error") ∧
    (∀ code, (S7ProtocolError.from_codes (some 0x81) code).cls =
      "Application relationship error") ∧
    (∀ code, (S7ProtocolError.from_codes (some 0x82) code).cls =
      "Object definition error") ∧
    (∀ code, (S7ProtocolError.from_codes (some 0x83) code).cls =
      "No resources available error") ∧
    (∀ code, (S7ProtocolError.from_codes (some 0x84) code).cls =
      "Error on service processing") ∧
    (∀ code, (S7ProtocolError.from_codes (some 0x85) code).cls =
      "Error on supplies") ∧
    (∀ code, (S7ProtocolError.from_codes (some 0x87) code).cls = "Access error") ∧
    (∀ c code, c < 256 →
      c ∉ ([0x00, 0x81, 0x82, 0x83, 0x84, 0x85, 0x87] : List Nat) →
      (S7ProtocolError.from_codes (some c) code).cls = "Unknown error class") ∧
    (∀ code, (S7ProtocolError.from_codes none code).cls = "No error class given") ∧
    (∀ cls code, (S7ProtocolError.from_codes cls (some code)).display =
      (S7ProtocolError.from_codes cls none).display ++ " - " ++
        ("error code: " ++ toString code)) ∧
    (S7ProtocolError.from_codes (some 0x84) (some 0x05)).display =
      "S7 Protocol error: Error on service processing - error code: 5" ∧
    "Error on service processing".toList <:+:
      ((S7ProtocolError.from_codes (some 0x84) (some 0x05)).display).toList ∧
    "5".toList <:+:
      ((S7ProtocolError.from_codes (some 0x84) (some 0x05)).display).toList := by
  refine ⟨fun code => rfl, fun code => rfl, fun code => rfl, fun code => rfl,
    fun code => rfl, fun code => rfl, fun code => rfl, ?_, fun code => rfl,
    fun cls code => rfl, rfl, ?_, ?_⟩
  · have aux : ∀ c, c < 256 → c ∉ ([0x00, 0x81, 0x82, 0x83, 0x84, 0x85, 0x87] : List Nat) →
        (S7ProtocolError.from_codes (some c) none).cls = "Unknown error class" := by decide
    intro c code hc hmem
    exact aux c hc hmem
  · decide
  · decide

/-- C8 witness: class byte `0x90` is outside the table and maps to
"Unknown error class". -/
theorem C8_protocol_error_classes_witness :
    (S7ProtocolError.from_codes (some 0x90) none).cls = "Unknown error class" :=
  C8_protocol_error_classes.2.2.2.2.2.2.2.1 0x90 none (by decide) (by decide)
/-- C3: when the negotiated PDU size is smaller than the fixed overhead
plus the byte size of one element, `write_area` returns
`ISORequest(InvalidPDU)` with an empty exchange trace: no transport
exchange occurs. -/
theorem C3_small_pdu_rejected (pdu_length pdu_number db_number start fuel : Nat)
    (area : Area) (data_type : S7DataTypes) (buffer : List Nat)
    (responses : Nat → List Nat)
    (h : pdu_length < header_size + data_type.get_size) :
    write_area pdu_length pdu_number area db_number start data_type buffer responses
        fuel =
      (.err (.ISORequest .InvalidPDU), []) := by
  have hs1 : 1 ≤ data_type.get_size := by cases data_type <;> decide
  have hlt : Int.tdiv ((pdu_length : Int) - (header_size : Int))
      (data_type.get_size : Int) < 1 := tdiv_lt_one_of_lt hs1 h
  simp only [write_area]
  rw [if_pos hlt]

/-- C3 witness: a 10-byte PDU cannot carry one byte element (overhead
35), so the write is rejected up front with no exchange. -/
theorem C3_small_pdu_rejected_witness :
    write_area 10 0 Area.DataBlock 1 0 S7DataTypes.S7BYTE [1, 2] (fun _ => goodResponse)
        5 =
      (.err (.ISORequest .InvalidPDU), []) :=
  C3_small_pdu_rejected 10 0 1 0 5 Area.DataBlock S7DataTypes.S7BYTE [1, 2]
    (fun _ => goodResponse) (by decide)

/-- C4 counterexample: with a 65536-byte slice of a 1-byte transport
size the declared count is computed in `u16` and wraps to 0, not
65536 × 1. -/
theorem C4_count_counterexample :
    ¬ ∀ (ts : DataItemTransportSize) (data : List Nat) (d : DataItem),
        DataItem.build_write ts (some data) = Except.ok d →
          d.count = data.length * ts.len := by
  intro h
  have h2 := h DataItemTransportSize.Byte (List.replicate 65536 0)
    { error_code := 0
      var_type := DataItemTransportSize.Byte.code
      count := (List.replicate (65536 : Nat) (0 : Nat)).length % 2 ^ 16 *
        DataItemTransportSize.Byte.len % 2 ^ 16
      data := List.replicate 65536 0 } rfl
  rw [List.length_replicate] at h2
  simp [DataItemTransportSize.len] at h2

/-- C4 (amended): whenever the element count times the transport size
fits in 16 bits, the declared count equals the slice length times the
per-element transport size. -/
theorem C4_count_is_elements_times_transport (ts : DataItemTransportSize)
    (data : List Nat) (d : DataItem) (hfit : data.length * ts.len < 2 ^ 16)
    (h : DataItem.build_write ts (some data) = Except.ok d) :
    d.count = data.length * ts.len := by
  have hlen1 : 1 ≤ ts.len := by cases ts <;> decide
  have hd : data.length < 2 ^ 16 := by
    calc data.length = data.length * 1 := (Nat.mul_one _).symm
    _ ≤ data.length * ts.len := Nat.mul_le_mul_left _ hlen1
    _ < 2 ^ 16 := hfit
  have hrecord : d =
      { error_code := 0
        var_type := ts.code
        count := data.length % 2 ^ 16 * ts.len % 2 ^ 16
        data := data } := by
    cases h
    rfl
  rw [hrecord]
  show data.length % 2 ^ 16 * ts.len % 2 ^ 16 = data.length * ts.len
  rw [Nat.mod_eq_of_lt hd, Nat.mod_eq_of_lt hfit]

/-- C4 witness: a 3-byte slice of 1-byte transport size declares count
3 = 3 × 1. -/
theorem C4_count_is_elements_times_transport_witness :
    DataItem.count { error_code := 0, var_type := 4, count := 3, data := [1, 2, 3] } =
      ([1, 2, 3] : List Nat).length * DataItemTransportSize.Byte.len :=
  C4_count_is_elements_times_transport DataItemTransportSize.Byte [1, 2, 3] _
    (by decide) rfl
/-- C5: once the response header has been decoded and validated, a
per-item result byte of 255 lets the fragment succeed, and any other
byte aborts the whole operation with the decoded `DataItemError` (0x05
giving `AddressOutOfRange`); concretely, on a 12-byte DWord buffer with
PDU 43 an all-good oracle yields two exchanges and success, while a bad
item byte in the first response aborts after a single exchange. -/
theorem C5_item_result_byte :
    (∀ pdu_number exchanged_data,
      (check_header pdu_number exchanged_data).isOk = true →
        (exchanged_data.get? 14 = some 255 →
          process_response pdu_number exchanged_data = .ok ()) ∧
        (∀ b, exchanged_data.get? 14 = some b → b ≠ 255 →
          process_response pdu_number exchanged_data =
            .error (.DataItemError (S7DataItemResponseError.fromU8 b)))) ∧
    S7DataItemResponseError.fromU8 0x05 = .AddressOutOfRange ∧
    write_area 43 0 Area.DataBlock 1 0 S7DataTypes.S7DWORD (List.replicate 12 0)
        (fun _ => goodResponse) 3 =
      (WriteOutcome.ok,
        [{ offset := 0, start_addr := 0, item_count := 2, data := List.replicate 8 0 },
          { offset := 6, start_addr := 6, item_count := 2, data := List.replicate 2 0 }]) ∧
    write_area 43 0 Area.DataBlock 1 0 S7DataTypes.S7DWORD (List.replicate 12 0)
        (fun _ => badItemResponse) 3 =
      (WriteOutcome.err (.DataItemError .AddressOutOfRange),
        [{ offset := 0, start_addr := 0, item_count := 2, data := List.replicate 8 0 }]) := by
  refine ⟨?_, rfl, by decide, by decide⟩
  intro pdu_number exchanged_data hok
  cases hch : check_header pdu_number exchanged_data with
  | error e => rw [hch] at hok; simp [Except.isOk, Except.toBool] at hok
  | ok r =>
    constructor
    · intro h255
      rw [List.get?_eq_getElem?] at h255
      simp [process_response, hch, check_data_item, h255]
    · intro b hb hbne
      rw [List.get?_eq_getElem?] at hb
      simp [process_response, hch, check_data_item, hb, hbne]

/-- C5 witness: the classification applied to the concrete good and
bad-item responses with PDU reference 0. -/
theorem C5_item_result_byte_witness :
    process_response 0 goodResponse = .ok () ∧
    process_response 0 badItemResponse =
      .error (.DataItemError (S7DataItemResponseError.fromU8 5)) :=
  ⟨(C5_item_result_byte.1 0 goodResponse (by decide)).1 (by decide),
    (C5_item_result_byte.1 0 badItemResponse (by decide)).2 5 (by decide) (by decide)⟩

/-- C10: a response that decodes and validates but has no byte at index
14 (length at most 14) skips the per-item check entirely and counts as
success — no `DataItemError` is possible for it. -/
theorem C10_missing_item_byte_is_success (pdu_number : Nat)
    (exchanged_data : List Nat) (hlen : exchanged_data.length ≤ 14)
    (hok : (check_header pdu_number exchanged_data).isOk = true) :
    process_response pdu_number exchanged_data = .ok () := by
  have hget : exchanged_data.get? 14 = none := by
    rw [List.get?_eq_none]
    exact hlen
  cases hch : check_header pdu_number exchanged_data with
  | error e => rw [hch] at hok; simp [Except.isOk, Except.toBool] at hok
  | ok r =>
    rw [List.get?_eq_getElem?] at hget
    simp [process_response, hch, check_data_item, hget]

/-- C10 witness: the 12-byte header-only response validates and is
treated as a successful fragment. -/
theorem C10_missing_item_byte_is_success_witness :
    process_response 0 headerOnlyResponse = .ok () :=
  C10_missing_item_byte_is_success 0 headerOnlyResponse (by decide) (by decide)

/-- C1: evaluating `write_area` on the scenario given by the claim — 500
one-byte elements with a PDU of 235 bytes, so 200 elements per
fragment — performs exactly one transport exchange, covering only the
200 elements at offset 0, and then returns success, not the three
exchanges of 200, 200 and 100 elements the claim requires. -/
theorem C1_five_hundred_elements_one_exchange :
    write_area 235 0 Area.DataBlock 1 0 S7DataTypes.S7BYTE (List.replicate 500 0)
        (fun _ => goodResponse) 2 =
      (WriteOutcome.ok,
        [{ offset := 0, start_addr := 0, item_count := 200, data := List.replicate 200 0 }]) := by
  decide

/-- C2: on the empty buffer the guard `offset == 0` re-enters the loop
and `offset` is advanced by `requested_size = 0`, so the loop never
terminates: for every fuel the run ends in fuel exhaustion (with a good
oracle the PDU pre-check passes with PDU 235 and 1-byte elements). -/
theorem C2_empty_buffer_loop_diverges (fuel : Nat) :
    (write_area 235 0 Area.DataBlock 1 0 S7DataTypes.S7BYTE [] (fun _ => goodResponse)
        fuel).1 =
      WriteOutcome.fuelOut := by
  have main : ∀ f idx,
      (write_area_loop 235 0 0 S7DataTypes.S7BYTE [] (fun _ => goodResponse) 0 idx
        f).1 = WriteOutcome.fuelOut := by
    intro f
    induction f with
    | zero => intro idx; rfl
    | succ n ih =>
      intro idx
      rw [write_area_loop_empty_step]
      exact ih (idx + 1)
  exact main fuel 0

/-- C6: a transport response of 11 bytes makes `write_area` panic at
the slice `exchanged_data[0..12]` instead of failing with the
`ShortPacket` ISO-response error the header decoder would have produced
for that slice. -/
theorem C6_short_response_panics :
    write_area 39 0 Area.DataBlock 1 0 S7DataTypes.S7BYTE (List.replicate 4 0)
        (fun _ => List.replicate 11 0) 2 =
      (WriteOutcome.panicked,
        [{ offset := 0, start_addr := 0, item_count := 4, data := List.replicate 4 0 }]) ∧
    S7ProtocolHeader.tryFrom (List.replicate 11 0) =
      .error (.ISOResponse .ShortPacket) :=
  ⟨by decide, rfl⟩
end S7Client
